import Mathlib

/-!
Verification of `use-firestore-collections` (src/src/index.js).

The library is a thin lifecycle adapter: a module-level registry maps each
collection name to a record of reactive cells `{data, loading, error}`,
an auth-state listener per record toggles a Firestore `onSnapshot` data
listener, and snapshot / stream-error / auth callbacks mutate the cells.

We embed the per-record mutable state as `RecordState`, the three callback
kinds as an `Event` type with a `step` transition function (a direct
transcription of the callback bodies in `subscribeToCollection`), and the
module-level `collectionsState` object together with the fresh reactive
cells as `GlobalState` (cell identity is modelled by a `rid : Nat` drawn
from a fresh-name counter, so sharing of the underlying reactive cells is
the statement that two views carry the same `rid`).
-/

namespace UseFirestoreCollections

/-- A Firestore document as delivered in a snapshot: an identifier plus a
field map (field values modelled as strings; their type is irrelevant to
the lifecycle logic). -/
structure Doc where
  id : String
  fields : List (String × String)
deriving DecidableEq, Repr

/-- The result of `{ id: doc.id, ...doc.data() }` in the snapshot callback:
the document identifier merged with its field map. -/
structure MappedDoc where
  id : String
  fields : List (String × String)
deriving DecidableEq, Repr

/-- `doc => ({ id: doc.id, ...doc.data() })` from the snapshot success
callback (src/src/index.js line 58). -/
def mapDoc (d : Doc) : MappedDoc :=
  { id := d.id, fields := d.fields }

/-- Failure values that the code stores into the `error` cell:
`new Error('User not authenticated')` on sign-out, or the stream failure
value `err` passed to the `onSnapshot` error callback. -/
inductive Err where
  | authRequired : Err
  | streamFailure : String → Err
deriving DecidableEq, Repr

/-- The mutable state of one collection record: the three reactive cells
`data`, `loading`, `error`, and the `unsubscribeSnapshot` variable
(`listenerActive` is `unsubscribeSnapshot !== null`).  `opens` counts calls
to `onSnapshot` and `cancels` counts invocations of `unsubscribeSnapshot()`;
they instrument the code's side effects and are written exactly where the
code performs them. -/
structure RecordState where
  data : List MappedDoc
  loading : Bool
  error : Option Err
  listenerActive : Bool
  opens : Nat
  cancels : Nat
deriving DecidableEq, Repr

/-- Record state as created by `subscribeToCollection` for a fresh name
(src/src/index.js lines 38-43): `data = []`, `loading = true`,
`error = null`, `unsubscribeSnapshot = null`. -/
def initRecordState : RecordState :=
  { data := [], loading := true, error := none
    listenerActive := false, opens := 0, cancels := 0 }

/-- The events delivered to a record's callbacks: an auth-state change
(`signedIn` is whether `user` is non-null; for a signed-in callback the
`collection`/`onSnapshot` calls return normally), a signed-in auth
callback during which `collection(db, name)`/`onSnapshot` throws
synchronously (reachable in the real code, e.g. for an invalid collection
path with an even number of segments such as "a/b"), a successful
snapshot, or a stream-level failure. -/
inductive Event where
  | auth (signedIn : Bool) : Event
  | authOpenThrows : Event
  | snapshot (docs : List Doc) : Event
  | streamError (msg : String) : Event
deriving DecidableEq, Repr

/-- The signed-in branch of the auth callback (src/src/index.js lines
47-68).  `openOk` is whether `collection`/`onSnapshot` return normally;
when opening throws, `loading` has already been set to `true` and the
assignment to `unsubscribeSnapshot` never happens, so only `loading`
changes. -/
def stepAuthSignedIn (openOk : Bool) (s : RecordState) : RecordState :=
  if s.listenerActive then s
  else if openOk then
    { s with loading := true, listenerActive := true, opens := s.opens + 1 }
  else
    { s with loading := true }

/-- The signed-out branch of the auth callback (src/src/index.js lines
69-79): cancel the data listener if one is active, then unconditionally
clear `data`, set the authentication error and stop loading. -/
def stepAuthSignedOut (s : RecordState) : RecordState :=
  let s1 := if s.listenerActive then
      { s with listenerActive := false, cancels := s.cancels + 1 }
    else s
  { s1 with data := [], error := some .authRequired, loading := false }

/-- The snapshot success callback (src/src/index.js lines 56-61): replace
`data` wholesale with the mapped document list, stop loading, clear the
error. -/
def stepSnapshot (docs : List Doc) (s : RecordState) : RecordState :=
  { s with data := docs.map mapDoc, loading := false, error := none }

/-- The snapshot error callback (src/src/index.js lines 62-66): store the
failure value and stop loading; `data` is not touched. -/
def stepStreamError (msg : String) (s : RecordState) : RecordState :=
  { s with error := some (.streamFailure msg), loading := false }

/-- One callback dispatch on a record.  A signed-in auth callback comes in
two variants, according to whether opening the stream returns normally
(`.auth true`) or throws synchronously (`.authOpenThrows`); both run the
signed-in branch of the code, lines 47-68. -/
def step (s : RecordState) : Event → RecordState
  | .auth true => stepAuthSignedIn true s
  | .auth false => stepAuthSignedOut s
  | .authOpenThrows => stepAuthSignedIn false s
  | .snapshot docs => stepSnapshot docs s
  | .streamError msg => stepStreamError msg s

/-- A sequence of callback dispatches. -/
def run (s : RecordState) (evs : List Event) : RecordState :=
  evs.foldl step s

/-- Whether an event can actually be delivered in state `s`: auth callbacks
always fire, while snapshot and stream-error callbacks come from the data
stream and are only delivered while a data listener is active. -/
def validEvent (s : RecordState) : Event → Bool
  | .auth _ => true
  | .authOpenThrows => true
  | .snapshot _ => s.listenerActive
  | .streamError _ => s.listenerActive

/-- A deliverable sequence of events from state `s`. -/
def validTrace : RecordState → List Event → Bool
  | _, [] => true
  | s, e :: evs => validEvent s e && validTrace (step s e) evs

/-- Accumulator for the last reported authentication state
(`.authOpenThrows` is an auth callback reporting a signed-in principal). -/
def authUpd (a : Option Bool) : Event → Option Bool
  | .auth b => some b
  | .authOpenThrows => some true
  | _ => a

/-- The last authentication state reported over a trace (`none` before the
first auth callback). -/
def lastAuth (evs : List Event) : Option Bool :=
  evs.foldl authUpd none

/-- A registry entry: the identity `rid` of the record's reactive cells
(fresh per record, modelling JS reference identity of the `ref` objects)
together with the current cell values. -/
structure Record where
  rid : Nat
  state : RecordState
deriving DecidableEq, Repr

/-- The module-level state: the `collectionsState` object (an association
list keyed by collection name), a fresh-identity counter for newly created
reactive cells, and the count of auth-state listeners attached via
`onAuthStateChanged`. -/
structure GlobalState where
  collections : List (String × Record)
  nextId : Nat
  authListeners : Nat
deriving DecidableEq, Repr

/-- Property lookup `collectionsState[name]`. -/
def findRecord : List (String × Record) → String → Option Record
  | [], _ => none
  | (k, r) :: rest, n => if k = n then some r else findRecord rest n

/-- The state of the module right after load: empty `collectionsState`. -/
def emptyGlobalState : GlobalState :=
  { collections := [], nextId := 0, authListeners := 0 }

/-- `subscribeToCollection(name)` (src/src/index.js lines 32-90): if no
record exists for `name`, create fresh reactive cells with `data = []`,
`loading = true`, `error = null`, attach one auth-state listener and store
the record under `name`; otherwise do nothing. -/
def subscribeToCollection (g : GlobalState) (name : String) : GlobalState :=
  match findRecord g.collections name with
  | some _ => g
  | none =>
      { collections :=
          (name, { rid := g.nextId, state := initRecordState }) :: g.collections
        nextId := g.nextId + 1
        authListeners := g.authListeners + 1 }

/-- `useFirestoreCollections(collectionNames = [])` (src/src/index.js lines
101-116): ensure a subscription for every requested name, then return a
mapping from each name to a view exposing the record's reactive cells — the
very cells stored in the registry, modelled by returning the record's
`rid`.  Looking up a never-subscribed name yields `none` (the JS code would
throw there). -/
def useFirestoreCollections (g : GlobalState) (collectionNames : List String := []) :
    GlobalState × List (String × Option Nat) :=
  let g' := collectionNames.foldl subscribeToCollection g
  (g', collectionNames.map fun n => (n, (findRecord g'.collections n).map Record.rid))

/-- Failures raised by the external Firebase SDK at module load. -/
inductive FirebaseError where
  | noBackendInitialized : FirebaseError
deriving DecidableEq, Repr

/-- An initialized Firebase app context (opaque to the lifecycle logic). -/
structure App where
  tag : Nat
deriving DecidableEq, Repr

/-- Modelled from the spec: the backend context resolver used by the
module-level `getFirestore()` / `getAuth()` calls (src/src/index.js lines
17-18) lives in the external Firebase SDK, not under src/.  Per §4.1
`ensureBackendContext` and §7, it resolves the default globally-initialized
app context and fails with `NoBackendInitialized` when none is available. -/
def resolveContext (defaultApp : Option App) : Except FirebaseError App :=
  match defaultApp with
  | some a => .ok a
  | none => .error .noBackendInitialized

/-- Loading the module and calling the entry point: `getFirestore()` and
`getAuth()` run at module top level (src/src/index.js lines 17-18), before
`useFirestoreCollections` can run, so context resolution failure happens
before any record is created or listener attached. -/
def moduleLoadAndUse (defaultApp : Option App) (names : List String) :
    Except FirebaseError (GlobalState × List (String × Option Nat)) := do
  let _db ← resolveContext defaultApp
  let _auth ← resolveContext defaultApp
  pure (useFirestoreCollections emptyGlobalState names)

/-- The number of auth listeners attached by a module-load-and-use run
(zero when the run failed before reaching the registry). -/
def attachedAuthListeners :
    Except FirebaseError (GlobalState × List (String × Option Nat)) → Nat
  | .ok (g, _) => g.authListeners
  | .error _ => 0

/-- A record state with an active data listener, as reached after one
signed-in auth callback; used to instantiate theorems with hypotheses. -/
def sActive : RecordState :=
  { data := [], loading := true, error := none
    listenerActive := true, opens := 1, cancels := 0 }

theorem run_append (s : RecordState) (l1 l2 : List Event) :
    run s (l1 ++ l2) = run (run s l1) l2 := by
  simp [run, List.foldl_append]

theorem listenerActive_run_snapshots (ds : List (List Doc)) (s : RecordState) :
    (run s (ds.map Event.snapshot)).listenerActive = s.listenerActive := by
  induction ds generalizing s with
  | nil => rfl
  | cons d ds ih => simpa [run, List.foldl_cons] using ih (step s (.snapshot d))

theorem validTrace_snapshots (ds : List (List Doc)) (s : RecordState)
    (h : s.listenerActive = true) :
    validTrace s (ds.map Event.snapshot) = true := by
  induction ds generalizing s with
  | nil => rfl
  | cons d ds ih =>
    simp only [List.map_cons, validTrace, validEvent, h, Bool.true_and]
    exact ih (step s (.snapshot d)) h

/-- Claim C1: for a record with an active data listener, every snapshot
event replaces `data` wholesale with the mapped document list, sets
`loading` to false and clears `error`; after any sequence of snapshot
events, `data` equals exactly the mapping of the last snapshot (no merge
with previous `data`), and all those events are deliverable. -/
theorem c1_snapshot_replaces_wholesale (s : RecordState)
    (ds : List (List Doc)) (d : List Doc) (h : s.listenerActive = true) :
    validTrace s ((ds ++ [d]).map Event.snapshot) = true ∧
    (run s ((ds ++ [d]).map Event.snapshot)).data = d.map mapDoc ∧
    (run s ((ds ++ [d]).map Event.snapshot)).loading = false ∧
    (run s ((ds ++ [d]).map Event.snapshot)).error = none := by
  refine ⟨validTrace_snapshots _ _ h, ?_, ?_, ?_⟩ <;>
    rw [List.map_append, run_append] <;> rfl

/-- Claim C1 witness: the spec's two-snapshot scenario, starting from a
live record. -/
theorem c1_snapshot_replaces_wholesale_witness :
    sActive.listenerActive = true ∧
    (run sActive (([[Doc.mk "a" []]] ++ [[Doc.mk "a" [], Doc.mk "b" []]]).map
        Event.snapshot)).data
      = [Doc.mk "a" [], Doc.mk "b" []].map mapDoc :=
  ⟨rfl, (c1_snapshot_replaces_wholesale sActive [[Doc.mk "a" []]]
    [Doc.mk "a" [], Doc.mk "b" []] rfl).2.1⟩

/-- Claim C2: a signed-out auth callback cancels the data listener exactly
once when one is active (and not at all otherwise), clears the handle, and
in every case sets `data = []`, `error = AuthenticationRequired`,
`loading = false`. -/
theorem c2_signout_clears (s : RecordState) :
    (step s (.auth false)).data = [] ∧
    (step s (.auth false)).error = some Err.authRequired ∧
    (step s (.auth false)).loading = false ∧
    (step s (.auth false)).listenerActive = false ∧
    (step s (.auth false)).cancels = s.cancels + (if s.listenerActive then 1 else 0) := by
  cases h : s.listenerActive <;> simp [step, stepAuthSignedOut, h]

/-- Claim C5: a stream-level failure event sets `error` to the failure
value and stops loading while leaving `data` (and the listener) unchanged;
a subsequent successful snapshot clears `error`. -/
theorem c5_stream_error_keeps_data (s : RecordState) (msg : String) (docs : List Doc) :
    (step s (.streamError msg)).error = some (Err.streamFailure msg) ∧
    (step s (.streamError msg)).loading = false ∧
    (step s (.streamError msg)).data = s.data ∧
    (step s (.streamError msg)).listenerActive = s.listenerActive ∧
    (step (step s (.streamError msg)) (.snapshot docs)).error = none :=
  ⟨rfl, rfl, rfl, rfl, rfl⟩

/-- Claim C8: the cancellation function is invoked only under the non-null
guard, so a signed-out callback with no active subscription performs no
cancellation and never throws, and a second signed-out callback is a
no-op (idempotence). -/
theorem c8_cancel_guarded_idempotent (s : RecordState) :
    (step { s with listenerActive := false } (.auth false)).cancels = s.cancels ∧
    step (step s (.auth false)) (.auth false) = step s (.auth false) := by
  constructor
  · simp [step, stepAuthSignedOut]
  · cases h : s.listenerActive <;> simp [step, stepAuthSignedOut, h]

theorem listenerActive_tracks_authUpd (evs : List Event) (s : RecordState)
    (a : Option Bool) (hnt : Event.authOpenThrows ∉ evs)
    (h : s.listenerActive = (a == some true)) :
    (run s evs).listenerActive = (evs.foldl authUpd a == some true) := by
  induction evs generalizing s a with
  | nil => simpa [run] using h
  | cons e evs ih =>
    have hne : e ≠ Event.authOpenThrows := fun he => hnt (he ▸ List.mem_cons_self _ _)
    have hnt' : Event.authOpenThrows ∉ evs := fun hm => hnt (List.mem_cons_of_mem _ hm)
    have hstep : (step s e).listenerActive = (authUpd a e == some true) := by
      cases e with
      | auth b =>
        cases b with
        | true => cases hh : s.listenerActive <;> simp [step, stepAuthSignedIn, authUpd, hh]
        | false => cases hh : s.listenerActive <;> simp [step, stepAuthSignedOut, authUpd, hh]
      | authOpenThrows => exact absurd rfl hne
      | snapshot docs => simpa [step, stepSnapshot, authUpd] using h
      | streamError m => simpa [step, stepStreamError, authUpd] using h
    simpa [run, List.foldl_cons] using ih (step s e) (authUpd a e) hnt' hstep

theorem listenerActive_imp_authUpd (evs : List Event) (s : RecordState)
    (a : Option Bool) (h : s.listenerActive = true → a = some true) :
    (run s evs).listenerActive = true → evs.foldl authUpd a = some true := by
  induction evs generalizing s a with
  | nil => simpa [run] using h
  | cons e evs ih =>
    have hstep : (step s e).listenerActive = true → authUpd a e = some true := by
      cases e with
      | auth b =>
        cases b with
        | true => intro _; rfl
        | false =>
          intro hh
          have hfalse : (step s (.auth false)).listenerActive = false := by
            cases hs : s.listenerActive <;> simp [step, stepAuthSignedOut, hs]
          rw [hfalse] at hh
          exact absurd hh (by simp)
      | authOpenThrows => intro _; rfl
      | snapshot docs => exact fun hh => h (by simpa [step, stepSnapshot] using hh)
      | streamError m => exact fun hh => h (by simpa [step, stepStreamError] using hh)
    simpa [run, List.foldl_cons] using ih (step s e) (authUpd a e) hstep

/-- Claim C4 counterexample: a single signed-in auth callback whose
synchronous `collection(db, name)` open throws (reachable in the real
code, e.g. an invalid path such as "a/b") reaches a state where the last
reported auth state is signed-in yet no data-listener handle exists, so
the claimed biconditional is false as stated. -/
theorem c4_handle_iff_auth_cex :
    lastAuth [Event.authOpenThrows] = some true ∧
    (run initRecordState [Event.authOpenThrows]).listenerActive = false ∧
    ¬(((run initRecordState [Event.authOpenThrows]).listenerActive = true) ↔
        lastAuth [Event.authOpenThrows] = some true) := by
  refine ⟨rfl, rfl, fun hiff => ?_⟩
  have := hiff.mpr rfl
  simp [run, step, stepAuthSignedIn, initRecordState] at this

/-- Claim C4 as amended: over sequences of auth callbacks and stream
events in which no stream open fails synchronously, the data-listener
handle is present exactly when the last reported authentication state was
signed-in; without that restriction, the forward direction still holds
unconditionally (a present handle implies the last auth state was
signed-in); a signed-in callback while a listener is active changes
nothing at all; and re-authenticating after a sign-out opens exactly one
new data listener. -/
theorem c4_handle_iff_auth_amended :
    (∀ evs : List Event, Event.authOpenThrows ∉ evs →
      ((run initRecordState evs).listenerActive = true ↔ lastAuth evs = some true)) ∧
    (∀ evs : List Event,
      (run initRecordState evs).listenerActive = true → lastAuth evs = some true) ∧
    (∀ s : RecordState, s.listenerActive = true → step s (.auth true) = s) ∧
    (∀ s : RecordState, s.listenerActive = true →
      (run s [.auth false, .auth true]).opens = s.opens + 1 ∧
      (run s [.auth false, .auth true]).listenerActive = true) := by
  refine ⟨fun evs hnt => ?_, fun evs hact => ?_, fun s h => ?_, fun s h => ?_⟩
  · rw [lastAuth, listenerActive_tracks_authUpd evs initRecordState none hnt rfl]
    exact beq_iff_eq
  · exact listenerActive_imp_authUpd evs initRecordState none
      (fun hh => absurd hh (by decide)) hact
  · simp [step, stepAuthSignedIn, h]
  · constructor <;>
      simp [run, step, stepAuthSignedOut, stepAuthSignedIn, h]

/-- Claim C4 witness: one successful signed-in callback from the initial
state, a redundant signed-in callback on a live record, and a sign-out
followed by a sign-in. -/
theorem c4_handle_iff_auth_amended_witness :
    ((run initRecordState [Event.auth true]).listenerActive = true ↔
      lastAuth [Event.auth true] = some true) ∧
    step sActive (.auth true) = sActive ∧
    (run sActive [.auth false, .auth true]).opens = sActive.opens + 1 :=
  ⟨c4_handle_iff_auth_amended.1 [Event.auth true] (by simp),
   c4_handle_iff_auth_amended.2.2.1 sActive rfl,
   (c4_handle_iff_auth_amended.2.2.2 sActive rfl).1⟩

theorem withLoading_eq_self (s : RecordState) (hl : s.loading = true) :
    ({ s with loading := true } : RecordState) = s := by
  cases s
  simpa using hl.symm

theorem run_stuck_without_auth (s : RecordState) (h : s.listenerActive = false)
    (hl : s.loading = true) (evs : List Event) (hv : validTrace s evs = true)
    (hna : ∀ b, Event.auth b ∉ evs) :
    run s evs = s := by
  induction evs with
  | nil => rfl
  | cons e evs ih =>
    cases e with
    | auth b => exact absurd (List.mem_cons_self _ _) (hna b)
    | authOpenThrows =>
      have hfix : step s .authOpenThrows = s := by
        rw [show step s .authOpenThrows = stepAuthSignedIn false s from rfl,
          stepAuthSignedIn, if_neg (by simp [h]), if_neg (by simp)]
        exact withLoading_eq_self s hl
      have hv' : validTrace s evs = true := by
        simpa [validTrace, validEvent, hfix] using hv
      have hna' : ∀ b, Event.auth b ∉ evs :=
        fun b hm => hna b (List.mem_cons_of_mem _ hm)
      calc run s (.authOpenThrows :: evs)
          = run (step s .authOpenThrows) evs := rfl
        _ = run s evs := by rw [hfix]
        _ = s := ih hv' hna'
    | snapshot docs => simp [validTrace, validEvent, h] at hv
    | streamError m => simp [validTrace, validEvent, h] at hv

/-- Claim C6: when opening the data stream throws synchronously in the
signed-in branch (no listener yet active), the failure is swallowed as far
as record state goes: `loading` (already set to true) stays true, no
listener handle is installed, `error` is untouched, and under deliverable
events without further auth callbacks the record stays in that state
indefinitely. -/
theorem c6_sync_open_failure_stuck (s : RecordState) (h : s.listenerActive = false) :
    stepAuthSignedIn false s = { s with loading := true } ∧
    (stepAuthSignedIn false s).error = s.error ∧
    (stepAuthSignedIn false s).listenerActive = false ∧
    (∀ evs : List Event, validTrace (stepAuthSignedIn false s) evs = true →
      (∀ b, Event.auth b ∉ evs) →
      run (stepAuthSignedIn false s) evs = stepAuthSignedIn false s) := by
  have hs : stepAuthSignedIn false s = { s with loading := true } := by
    simp [stepAuthSignedIn, h]
  refine ⟨hs, by rw [hs], by rw [hs]; exact h, fun evs hv hna => ?_⟩
  exact run_stuck_without_auth _ (by rw [hs]; exact h) (by rw [hs]) evs hv hna

/-- Claim C6 witness: the failed-open state from a fresh record, with the
empty continuation trace. -/
theorem c6_sync_open_failure_stuck_witness :
    initRecordState.listenerActive = false ∧
    stepAuthSignedIn false initRecordState = { initRecordState with loading := true } ∧
    run (stepAuthSignedIn false initRecordState) [] = stepAuthSignedIn false initRecordState :=
  ⟨rfl, (c6_sync_open_failure_stuck initRecordState rfl).1,
   (c6_sync_open_failure_stuck initRecordState rfl).2.2.2 [] rfl
     (by intro b hb; simp at hb)⟩

theorem findRecord_subscribe_self (g : GlobalState) (name : String) :
    (findRecord (subscribeToCollection g name).collections name).isSome = true := by
  cases hf : findRecord g.collections name with
  | some r => simp [subscribeToCollection, hf]
  | none => simp [subscribeToCollection, hf, findRecord]

theorem subscribe_noop_of_found (g : GlobalState) (name : String)
    (h : (findRecord g.collections name).isSome = true) :
    subscribeToCollection g name = g := by
  unfold subscribeToCollection
  cases hf : findRecord g.collections name with
  | some r => rfl
  | none => simp [hf] at h

theorem subscribeToCollection_idem (g : GlobalState) (name : String) :
    subscribeToCollection (subscribeToCollection g name) name
      = subscribeToCollection g name :=
  subscribe_noop_of_found _ _ (findRecord_subscribe_self g name)

/-- Claim C3: the first subscription request for a name creates exactly one
record with `data = []`, `loading = true`, `error = null` and attaches
exactly one auth listener; every subsequent request for the same name
leaves the whole registry state unchanged (no new listeners, no reset of
`data`, `loading` or `error`). -/
theorem c3_subscribe_idempotent (g : GlobalState) (name : String) :
    (findRecord g.collections name = none →
      findRecord (subscribeToCollection g name).collections name
        = some { rid := g.nextId, state := initRecordState } ∧
      (subscribeToCollection g name).authListeners = g.authListeners + 1 ∧
      (subscribeToCollection g name).collections.length = g.collections.length + 1) ∧
    initRecordState.data = [] ∧ initRecordState.loading = true ∧
    initRecordState.error = none ∧
    subscribeToCollection (subscribeToCollection g name) name
      = subscribeToCollection g name := by
  refine ⟨fun h => ?_, rfl, rfl, rfl, subscribeToCollection_idem g name⟩
  simp [subscribeToCollection, h, findRecord]

/-- Claim C3 witness: first and second subscription of `users` on the
freshly loaded module state. -/
theorem c3_subscribe_idempotent_witness :
    findRecord emptyGlobalState.collections "users" = none ∧
    findRecord (subscribeToCollection emptyGlobalState "users").collections "users"
      = some { rid := emptyGlobalState.nextId, state := initRecordState } ∧
    subscribeToCollection (subscribeToCollection emptyGlobalState "users") "users"
      = subscribeToCollection emptyGlobalState "users" :=
  ⟨rfl, ((c3_subscribe_idempotent emptyGlobalState "users").1 rfl).1,
   (c3_subscribe_idempotent emptyGlobalState "users").2.2.2.2⟩

/-- Claim C9: the entry point returns, for each requested name, a view
carrying exactly the reactive cells stored in the registry for that name
(the registry record's identity), and a second call for the same name
returns the identical references with the registry unchanged — so all
holders share one underlying mutable record. -/
theorem c9_shared_cells (g : GlobalState) (n : String) :
    (useFirestoreCollections g [n]).2
      = [(n, (findRecord (useFirestoreCollections g [n]).1.collections n).map Record.rid)] ∧
    (findRecord (useFirestoreCollections g [n]).1.collections n).isSome = true ∧
    useFirestoreCollections (useFirestoreCollections g [n]).1 [n]
      = useFirestoreCollections g [n] := by
  refine ⟨rfl, findRecord_subscribe_self g n, ?_⟩
  simp [useFirestoreCollections, subscribeToCollection_idem]

/-- Claim C10: calling the entry point with no argument (the parameter
defaults to the empty array) or with the empty list returns the empty
mapping and leaves the registry and all listeners untouched. -/
theorem c10_empty_names_noop (g : GlobalState) :
    useFirestoreCollections g = (g, []) ∧ useFirestoreCollections g [] = (g, []) :=
  ⟨rfl, rfl⟩

/-- Claim C7: with no backend app context available and none supplied,
module load fails with `NoBackendInitialized`, and this happens before any
auth or data listener is attached (no listener exists for any requested
name). -/
theorem c7_no_backend_fails_early (names : List String) :
    moduleLoadAndUse none names = .error FirebaseError.noBackendInitialized ∧
    attachedAuthListeners (moduleLoadAndUse none names) = 0 :=
  ⟨rfl, rfl⟩

end UseFirestoreCollections
